import Mathlib

/-!
Verification development for the trtllm-c Python bindings.

Source under study: `src/trtllm-c/python_bindings/bindings.cpp`.

The file binds five C entry points of the `tlc` library (`tlc_init`,
`tlc_shutdown`, `tlc_enqueue_request`, `tlc_await_responses`,
`tlc_can_enqueue_request`) to Python.  The C library itself (`tlc.h`, its
implementation) is not part of the sources; the lambdas of the binding are.

Embedding.
* The C library is a record `TlcLib σ` of state-passing functions over an
  arbitrary library state `σ`.  An out-parameter `T* out` becomes an extra
  argument (the content of the cell before the call) and an extra result (its
  content after the call).
* Pointers are natural-number addresses, `0` is `nullptr`.  Memory reachable
  through the pointers the library hands out is read with `respMem`, `tokMem`
  and `strMem`.
* A C++ `throw std::runtime_error(status)` becomes `Except.error`.
* `uint32_t` and `TlcReqId` values are natural numbers; the binding does no
  arithmetic on them apart from `responses_ptr + num_responses`, so no
  wrap-around is involved and every statement below holds in particular for
  the values below `2^32`.
* Each lambda of the binding is one Lean function with the lambda's name.
-/

namespace TrtllmC

/-! ## Data model of the C interface -/

/-- A machine address; `0` is the null pointer. -/
abbrev Ptr := Nat

/-- The null pointer. -/
def nullptr : Ptr := 0

/-- Request identifier assigned by the executor (`TlcReqId`). -/
abbrev TlcReqId := Nat

/-- A token id (`TlcToken`). -/
abbrev TlcToken := Nat

/-- `TlcStatus` is a C string pointer: null means success, otherwise it points
to the message.  The binding only tests it for null and copies the message
into the exception at once, so the status is embedded as the optional message
text. -/
abbrev TlcStatus := Option String

/-- Modelled from the spec: the members of `TlcInitParams`, declared in the
missing `tlc.h`.  The binding exposes `engine_path`; section 6 of the spec
names the engine path, the maximum batch size and the maximum number of
concurrent requests. -/
structure TlcInitParams where
  engine_path : String
  max_batch_size : Nat
  max_concurrent_requests : Nat
  deriving DecidableEq, Repr

/-- The member of `TlcRequestParams` the binding exposes. -/
structure TlcRequestParams where
  max_new_tokens : Nat
  deriving DecidableEq, Repr

/-- The members of `TlcRequest` the binding exposes: `tokens` is a pointer to
`num_tokens` token ids. -/
structure TlcRequest where
  tokens : Ptr
  num_tokens : Nat
  client_req_id : Nat
  params : TlcRequestParams
  deriving DecidableEq, Repr

/-- Modelled from the spec: the values of the finish reason, whose type is
declared in the missing `tlc.h`.  Section 4.3 lists `length`,
`end_of_sequence`, `cancelled` and `error`; section 6 makes the field
nullable, which is `none` here. -/
inductive TlcFinishReason where
  | none
  | length
  | end_of_sequence
  | cancelled
  | error
  deriving DecidableEq, Repr

/-- The members of `TlcResponse` the binding exposes (lines 36-46).  Modelled
from the spec: the member types, declared in the missing `tlc.h`.  The token
payload is a pointer with a separate count (`tokens`, `num_tokens`) and the
error is a nullable C string, the "C-style raw pointer/array handoff" of
section 9. -/
structure TlcResponse where
  req_id : TlcReqId
  sequence_idx : Nat
  is_seq_final : Bool
  is_req_final : Bool
  finish_reason : TlcFinishReason
  error : Ptr
  tokens : Ptr
  num_tokens : Nat
  deriving DecidableEq, Repr

instance : Inhabited TlcResponse :=
  ⟨⟨0, 0, false, false, TlcFinishReason.none, 0, 0, 0⟩⟩

/-- What the C `tlc_init` leaves behind: new library state, status, and the
content of `*res`. -/
structure InitResult (σ : Type) where
  state : σ
  status : TlcStatus
  executor : Ptr

/-- What the C `tlc_enqueue_request` leaves behind: new library state, status,
and the content of `*req_id`. -/
structure EnqueueResult (σ : Type) where
  state : σ
  status : TlcStatus
  req_id : TlcReqId

/-- What the C `tlc_await_responses` leaves behind: new library state, status,
and the contents of `*responses` and `*num_responses`. -/
structure AwaitResult (σ : Type) where
  state : σ
  status : TlcStatus
  responses_ptr : Ptr
  num_responses : Nat

/-- The C library behind the binding, over a library state `σ`.

Every out-parameter appears twice: as the last argument(s), the content of the
pointed-to cell when the call starts, and in the result record, its content
when the call returns. -/
structure TlcLib (σ : Type) where
  tlc_init : σ → TlcInitParams → Ptr → InitResult σ
  tlc_shutdown : σ → Ptr → σ
  tlc_enqueue_request : σ → Ptr → TlcRequest → TlcReqId → EnqueueResult σ
  tlc_await_responses : σ → Ptr → Nat → Ptr → Nat → AwaitResult σ
  tlc_can_enqueue_request : σ → Ptr → σ × Bool
  respMem : σ → Ptr → TlcResponse
  tokMem : σ → Ptr → TlcToken
  strMem : σ → Ptr → String

/-- The C++ exception the binding throws: `std::runtime_error(status)`. -/
structure RuntimeError where
  what : String
  deriving DecidableEq, Repr

/-! ## The binding (`bindings.cpp`) -/

/-- The range constructor `std::vector<TlcResponse>(first, first + n)`: element
`i` is a copy of the struct stored at `first + i`. -/
def vectorFromRange (mem : Ptr → TlcResponse) (first : Ptr) (n : Nat) : List TlcResponse :=
  (List.range n).map (fun i => mem (first + i))

/-- Lines 50-52: `can_enqueue_request`. -/
def can_enqueue_request {σ : Type} (lib : TlcLib σ) (w : σ) (self : Ptr) : σ × Bool :=
  lib.tlc_can_enqueue_request w self

/-- Lines 56-65: `tlc_init`. -/
def tlc_init {σ : Type} (lib : TlcLib σ) (w : σ) (params : TlcInitParams) :
    σ × Except RuntimeError Ptr :=
  let executor : Ptr := nullptr
  let r := lib.tlc_init w params executor
  match r.status with
  | some status => (r.state, Except.error ⟨status⟩)
  | Option.none => (r.state, Except.ok r.executor)

/-- Lines 67-69: `tlc_shutdown`. -/
def tlc_shutdown {σ : Type} (lib : TlcLib σ) (w : σ) (executor : Ptr) : σ :=
  lib.tlc_shutdown w executor

/-- Lines 71-78: `tlc_enqueue_request`.  The local `req_id` is declared without
an initialiser; `req_id0` is whatever it holds before the call. -/
def tlc_enqueue_request {σ : Type} (lib : TlcLib σ) (w : σ) (executor : Ptr)
    (request : TlcRequest) (req_id0 : TlcReqId) : σ × Except RuntimeError TlcReqId :=
  let r := lib.tlc_enqueue_request w executor request req_id0
  match r.status with
  | some status => (r.state, Except.error ⟨status⟩)
  | Option.none => (r.state, Except.ok r.req_id)

/-- Lines 80-89: `tlc_await_responses`. -/
def tlc_await_responses {σ : Type} (lib : TlcLib σ) (w : σ) (executor : Ptr)
    (timeout_ms : Nat) : σ × Except RuntimeError (List TlcResponse) :=
  let responses_ptr : Ptr := nullptr
  let num_responses : Nat := 0
  let r := lib.tlc_await_responses w executor timeout_ms responses_ptr num_responses
  match r.status with
  | some status => (r.state, Except.error ⟨status⟩)
  | Option.none =>
    (r.state, Except.ok (vectorFromRange (lib.respMem r.state) r.responses_ptr r.num_responses))

/-! ## Observing memory through a returned Response -/

/-- The error text a caller sees through a `TlcResponse` it holds: nothing for
a null `error`, otherwise the C string at that address in the memory of `w`. -/
def errorText {σ : Type} (lib : TlcLib σ) (w : σ) (r : TlcResponse) : Option String :=
  if r.error = nullptr then Option.none else some (lib.strMem w r.error)

/-- Responses of one request appear with non-decreasing sequence index. -/
def PerRequestOrdered (rs : List TlcResponse) : Prop :=
  rs.Pairwise (fun a b => a.req_id = b.req_id → a.sequence_idx ≤ b.sequence_idx)

instance (rs : List TlcResponse) : Decidable (PerRequestOrdered rs) := by
  unfold PerRequestOrdered; infer_instance

/-! ## Recording the calls that reach the C library -/

/-- One call of a C entry point, with the arguments it received. -/
inductive Call where
  | init (params : TlcInitParams)
  | shutdown (executor : Ptr)
  | enqueue (executor : Ptr) (request : TlcRequest)
  | await (executor : Ptr) (timeout_ms : Nat)
  | can_enqueue (executor : Ptr)
  deriving DecidableEq, Repr

/-- The library `lib` with a log: every entry point behaves as in `lib` and
appends one record of the call to the log. -/
def traced {σ : Type} (lib : TlcLib σ) : TlcLib (σ × List Call) where
  tlc_init := fun w params res0 =>
    let r := lib.tlc_init w.1 params res0
    ⟨(r.state, w.2 ++ [Call.init params]), r.status, r.executor⟩
  tlc_shutdown := fun w executor =>
    (lib.tlc_shutdown w.1 executor, w.2 ++ [Call.shutdown executor])
  tlc_enqueue_request := fun w executor request id0 =>
    let r := lib.tlc_enqueue_request w.1 executor request id0
    ⟨(r.state, w.2 ++ [Call.enqueue executor request]), r.status, r.req_id⟩
  tlc_await_responses := fun w executor timeout_ms ptr0 num0 =>
    let r := lib.tlc_await_responses w.1 executor timeout_ms ptr0 num0
    ⟨(r.state, w.2 ++ [Call.await executor timeout_ms]), r.status, r.responses_ptr,
      r.num_responses⟩
  tlc_can_enqueue_request := fun w executor =>
    let r := lib.tlc_can_enqueue_request w.1 executor
    ((r.1, w.2 ++ [Call.can_enqueue executor]), r.2)
  respMem := fun w => lib.respMem w.1
  tokMem := fun w => lib.tokMem w.1
  strMem := fun w => lib.strMem w.1

/-! ## The executor described by the specification

The implementation of the C entry points is not among the sources.  The
definitions of this section follow sections 3, 4 and 7 of the specification. -/

namespace Spec

/-- Modelled from the spec: the lifecycle of an executor (section 3,
`ExecutorState`).  `Uninitialized` is the absence of the executor. -/
inductive ExecutorState where
  | Initialized
  | Shutdown
  deriving DecidableEq, Repr

/-- Modelled from the spec: a `Response` of section 3, an immutable snapshot
with an incremental token payload. -/
structure Response where
  req_id : TlcReqId
  sequence_idx : Nat
  is_sequence_final : Bool
  is_request_final : Bool
  tokens : List TlcToken
  finish_reason : TlcFinishReason
  error : Option String
  deriving DecidableEq, Repr

/-- Modelled from the spec: the `SequenceState` of section 3, the record the
Scheduler keeps for a request it has started. -/
structure SequenceState where
  req_id : TlcReqId
  tokens : List TlcToken
  sequence_idx : Nat
  deriving DecidableEq, Repr

/-- Modelled from the spec: one executor (section 2): lifecycle state, the
configured bound on concurrent requests, the Request Queue, the Sequence
Trackers of the requests being generated, the Response Buffer, the next
identifier to assign, and how many times the collaborator resources were
released. -/
structure Executor where
  state : ExecutorState
  max_concurrent_requests : Nat
  next_req_id : TlcReqId
  queue : List (TlcReqId × TlcRequest)
  in_flight : List SequenceState
  buffer : List Response
  releases : Nat
  deriving DecidableEq, Repr

/-- Modelled from the spec: the whole library state.  `artifacts` are the
resolvable engine locations; the handle `h > 0` names `executors[h - 1]`
(section 9: an owned handle returned by `init`); the three cell lists are the
memory handed to callers, address `a > 0` naming cell `a - 1`. -/
structure World where
  artifacts : List String
  executors : List Executor
  respCells : List TlcResponse
  tokCells : List TlcToken
  strCells : List String
  deriving DecidableEq, Repr

/-- Status messages of the error taxonomy of section 7. -/
def InitError : String := "InitError"
/-- Status message: enqueue rejected for lack of capacity. -/
def CapacityExceeded : String := "CapacityExceeded"
/-- Status message: malformed request. -/
def InvalidRequest : String := "InvalidRequest"
/-- Status message: operation before init or after shutdown. -/
def NotInitialized : String := "NotInitialized"

/-- The executor a handle names, if any. -/
def lookup (w : World) (h : Ptr) : Option Executor :=
  if h = nullptr then Option.none else w.executors[h - 1]?

/-- The executor a handle names, when it is in state `Initialized`. -/
def lookupLive (w : World) (h : Ptr) : Option Executor :=
  match lookup w h with
  | some e => if e.state = ExecutorState.Initialized then some e else Option.none
  | Option.none => Option.none

/-- The handle names an executor in state `Shutdown`. -/
def IsShutdown (w : World) (h : Ptr) : Prop :=
  ∃ e, lookup w h = some e ∧ e.state = ExecutorState.Shutdown

/-- Replace the executor a (non-null, known) handle names. -/
def store (w : World) (h : Ptr) (e : Executor) : World :=
  { w with executors := w.executors.set (h - 1) e }

/-- Modelled from the spec: the Admission Controller (section 4.1): capacity
exists while the live requests (queued or being generated) are fewer than the
configured maximum. -/
def admits (e : Executor) : Bool :=
  decide (e.queue.length + e.in_flight.length < e.max_concurrent_requests)

/-- Modelled from the spec: `init` (section 4.5).  It validates the parameters
(resolvable engine location, a positive bound on concurrent requests), rejects
a second initialisation while an executor is initialised (section 3), and
otherwise creates a fresh executor and stores its handle; on failure nothing is
created and `*res` is left as it was. -/
def init (w : World) (params : TlcInitParams) (res0 : Ptr) : InitResult World :=
  if ¬ (params.engine_path ∈ w.artifacts) ∨ params.max_concurrent_requests = 0 then
    ⟨w, some InitError, res0⟩
  else if w.executors.any (fun e => decide (e.state = ExecutorState.Initialized)) then
    ⟨w, some InitError, res0⟩
  else
    ⟨{ w with executors := w.executors ++
        [⟨ExecutorState.Initialized, params.max_concurrent_requests, 1, [], [], [], 0⟩] },
      Option.none, w.executors.length + 1⟩

/-- The terminal Response that finalises a request with reason `cancelled`. -/
def cancelled (req_id : TlcReqId) (sequence_idx : Nat) : Response :=
  ⟨req_id, sequence_idx, true, true, [], TlcFinishReason.cancelled, Option.none⟩

/-- Modelled from the spec: what `shutdown` does to one executor (section
4.5): every accepted, unfinished request (being generated, or still queued) is
finalised with reason `cancelled`, the collaborator resources are released if
they are held, and the state becomes `Shutdown`. -/
def shutdownExecutor (e : Executor) : Executor :=
  { e with
    state := ExecutorState.Shutdown
    queue := []
    in_flight := []
    buffer := e.buffer ++ e.in_flight.map (fun s => cancelled s.req_id (s.sequence_idx + 1))
      ++ e.queue.map (fun q => cancelled q.1 0)
    releases := e.releases + (if e.state = ExecutorState.Initialized then 1 else 0) }

/-- Modelled from the spec: `shutdown` (section 4.5). -/
def shutdown (w : World) (h : Ptr) : World :=
  match lookup w h with
  | some e => store w h (shutdownExecutor e)
  | Option.none => w

/-- Modelled from the spec: `enqueue` (sections 4.2, 4.5, 7): fails with
`NotInitialized` unless the executor is initialised, with `InvalidRequest` for
zero tokens or a zero `max_new_tokens`, with `CapacityExceeded` when admission
is denied; otherwise assigns the next identifier and queues the request. -/
def enqueue (w : World) (h : Ptr) (request : TlcRequest) (id0 : TlcReqId) :
    EnqueueResult World :=
  match lookupLive w h with
  | Option.none => ⟨w, some NotInitialized, id0⟩
  | some e =>
    if request.num_tokens = 0 ∨ request.params.max_new_tokens = 0 then
      ⟨w, some InvalidRequest, id0⟩
    else if admits e = false then
      ⟨w, some CapacityExceeded, id0⟩
    else
      ⟨store w h { e with queue := e.queue ++ [(e.next_req_id, request)],
                          next_req_id := e.next_req_id + 1 },
        Option.none, e.next_req_id⟩

/-- Modelled from the spec: `can_enqueue` (section 4.1): a side-effect-free
check; an executor that is not initialised has no capacity to offer. -/
def canEnqueue (w : World) (h : Ptr) : World × Bool :=
  match lookupLive w h with
  | some e => (w, admits e)
  | Option.none => (w, false)

/-- Hand one Response to the caller as an owned copy: its tokens and its error
text go to fresh cells, and the C struct points at them. -/
def emit (acc : List TlcResponse × List TlcToken × List String) (r : Response) :
    List TlcResponse × List TlcToken × List String :=
  let tokPtr : Ptr := if r.tokens = [] then nullptr else acc.2.1.length + 1
  let errPtr : Ptr := match r.error with
    | some _ => acc.2.2.length + 1
    | Option.none => nullptr
  let strs : List String := match r.error with
    | some msg => acc.2.2 ++ [msg]
    | Option.none => acc.2.2
  (acc.1 ++ [⟨r.req_id, r.sequence_idx, r.is_sequence_final, r.is_request_final,
      r.finish_reason, errPtr, tokPtr, r.tokens.length⟩],
    acc.2.1 ++ r.tokens, strs)

/-- Modelled from the spec: `await_responses`, the `drain` of the Response
Buffer (section 4.4): fails with `NotInitialized` unless the executor is
initialised; otherwise returns every buffered Response, in order, as owned
copies in fresh memory (section 9), and empties the buffer.  Waiting is not
part of this sequential description. -/
def awaitResponses (w : World) (h : Ptr) (_timeout_ms : Nat) (ptr0 : Ptr) (num0 : Nat) :
    AwaitResult World :=
  match lookupLive w h with
  | Option.none => ⟨w, some NotInitialized, ptr0, num0⟩
  | some e =>
    let out := e.buffer.foldl emit ([], w.tokCells, w.strCells)
    ⟨{ store w h { e with buffer := [] } with
        respCells := w.respCells ++ out.1
        tokCells := out.2.1
        strCells := out.2.2 },
      Option.none, w.respCells.length + 1, out.1.length⟩

/-- Modelled from the spec: the C library as the specification describes it. -/
def lib : TlcLib World where
  tlc_init := init
  tlc_shutdown := shutdown
  tlc_enqueue_request := enqueue
  tlc_await_responses := awaitResponses
  tlc_can_enqueue_request := canEnqueue
  respMem := fun w a => if a = nullptr then default else w.respCells.getD (a - 1) default
  tokMem := fun w a => if a = nullptr then 0 else w.tokCells.getD (a - 1) 0
  strMem := fun w a => if a = nullptr then "" else w.strCells.getD (a - 1) ""

end Spec

/-! ## Sequences of calls and concrete states -/

/-- The state `w2` is reached from `w1` by some sequence of calls of the
binding, any functions with any arguments. -/
inductive Later {σ : Type} (lib : TlcLib σ) : σ → σ → Prop where
  | refl (w : σ) : Later lib w w
  | init {w1 w2 : σ} (params : TlcInitParams) :
      Later lib w1 w2 → Later lib w1 (tlc_init lib w2 params).1
  | shutdown {w1 w2 : σ} (executor : Ptr) :
      Later lib w1 w2 → Later lib w1 (tlc_shutdown lib w2 executor)
  | enqueue {w1 w2 : σ} (executor : Ptr) (request : TlcRequest) (req_id0 : TlcReqId) :
      Later lib w1 w2 → Later lib w1 (tlc_enqueue_request lib w2 executor request req_id0).1
  | await {w1 w2 : σ} (executor : Ptr) (timeout_ms : Nat) :
      Later lib w1 w2 → Later lib w1 (tlc_await_responses lib w2 executor timeout_ms).1
  | can_enqueue {w1 w2 : σ} (executor : Ptr) :
      Later lib w1 w2 → Later lib w1 (can_enqueue_request lib w2 executor).1

/-- The call of the C `tlc_await_responses` exactly as line 83 makes it: the
two out-parameters start as `nullptr` and `0`. -/
def drained {σ : Type} (lib : TlcLib σ) (w : σ) (executor : Ptr) (timeout_ms : Nat) :
    AwaitResult σ :=
  lib.tlc_await_responses w executor timeout_ms nullptr 0

/-- The `i`-th struct of the array a drain handed out. -/
def drainedAt {σ : Type} (lib : TlcLib σ) (d : AwaitResult σ) (i : Nat) : TlcResponse :=
  lib.respMem d.state (d.responses_ptr + i)

namespace Example

/-- One initialised executor (handle 1, room for two requests) that is
generating request 1 and has three Responses buffered, one of them an error. -/
def busy : Spec.World :=
  ⟨["/models/engine"],
    [⟨Spec.ExecutorState.Initialized, 2, 3, [], [⟨1, [5, 6, 9], 1⟩],
      [⟨1, 0, false, false, [5, 6], TlcFinishReason.none, Option.none⟩,
       ⟨2, 0, true, true, [], TlcFinishReason.error, some "boom"⟩,
       ⟨1, 1, false, false, [9], TlcFinishReason.none, Option.none⟩], 0⟩],
    [], [], []⟩

/-- One initialised executor (handle 1, room for one request) whose only slot
is taken by a queued request. -/
def full : Spec.World :=
  ⟨["/models/engine"],
    [⟨Spec.ExecutorState.Initialized, 1, 2, [(1, ⟨1, 3, 40, ⟨3⟩⟩)], [], [], 0⟩],
    [], [], []⟩

/-- No executor yet; one resolvable engine location. -/
def fresh : Spec.World := ⟨["/models/engine"], [], [], [], []⟩

/-- Valid initialisation parameters for `fresh`. -/
def params : TlcInitParams := ⟨"/models/engine", 8, 2⟩

/-- A well-formed request: three tokens at address 1, at most three new tokens. -/
def request : TlcRequest := ⟨1, 3, 41, ⟨3⟩⟩

end Example

/-! ## Properties of the binding, for every C library -/

theorem vectorFromRange_length (mem : Ptr → TlcResponse) (first : Ptr) (n : Nat) :
    (vectorFromRange mem first n).length = n := by
  simp [vectorFromRange]

theorem vectorFromRange_getElem? (mem : Ptr → TlcResponse) (first : Ptr) (n i : Nat)
    (h : i < n) : (vectorFromRange mem first n)[i]? = some (mem (first + i)) := by
  simp [vectorFromRange, List.getElem?_map, List.getElem?_range h]

theorem vectorFromRange_ordered (mem : Ptr → TlcResponse) (first : Ptr) (n : Nat)
    (h : ∀ i j, i < j → j < n → (mem (first + i)).req_id = (mem (first + j)).req_id →
      (mem (first + i)).sequence_idx ≤ (mem (first + j)).sequence_idx) :
    PerRequestOrdered (vectorFromRange mem first n) := by
  unfold PerRequestOrdered vectorFromRange
  rw [List.pairwise_map]
  have hr : (List.range n).Pairwise (fun a b => a < b) := List.pairwise_lt_range n
  have hm : ∀ a ∈ List.range n, a < n := fun a ha => List.mem_range.mp ha
  refine List.Pairwise.imp_of_mem ?_ hr
  intro a b _ hb hab
  exact h a b hab (hm b hb)

theorem await_ok {σ : Type} (lib : TlcLib σ) (w : σ) (executor : Ptr) (timeout_ms : Nat)
    (h : (drained lib w executor timeout_ms).status = Option.none) :
    tlc_await_responses lib w executor timeout_ms =
      ((drained lib w executor timeout_ms).state,
        Except.ok (vectorFromRange (lib.respMem (drained lib w executor timeout_ms).state)
          (drained lib w executor timeout_ms).responses_ptr
          (drained lib w executor timeout_ms).num_responses)) := by
  unfold drained at h
  simp only [tlc_await_responses, drained, h]

theorem await_error {σ : Type} (lib : TlcLib σ) (w : σ) (executor : Ptr) (timeout_ms : Nat)
    (s : String) (h : (drained lib w executor timeout_ms).status = some s) :
    tlc_await_responses lib w executor timeout_ms =
      ((drained lib w executor timeout_ms).state, Except.error ⟨s⟩) := by
  unfold drained at h
  simp only [tlc_await_responses, drained, h]

theorem enqueue_ok {σ : Type} (lib : TlcLib σ) (w : σ) (executor : Ptr)
    (request : TlcRequest) (req_id0 : TlcReqId)
    (h : (lib.tlc_enqueue_request w executor request req_id0).status = Option.none) :
    tlc_enqueue_request lib w executor request req_id0 =
      ((lib.tlc_enqueue_request w executor request req_id0).state,
        Except.ok (lib.tlc_enqueue_request w executor request req_id0).req_id) := by
  simp only [tlc_enqueue_request, h]

theorem enqueue_error {σ : Type} (lib : TlcLib σ) (w : σ) (executor : Ptr)
    (request : TlcRequest) (req_id0 : TlcReqId) (s : String)
    (h : (lib.tlc_enqueue_request w executor request req_id0).status = some s) :
    tlc_enqueue_request lib w executor request req_id0 =
      ((lib.tlc_enqueue_request w executor request req_id0).state, Except.error ⟨s⟩) := by
  simp only [tlc_enqueue_request, h]

theorem init_ok {σ : Type} (lib : TlcLib σ) (w : σ) (params : TlcInitParams)
    (h : (lib.tlc_init w params nullptr).status = Option.none) :
    tlc_init lib w params =
      ((lib.tlc_init w params nullptr).state, Except.ok (lib.tlc_init w params nullptr).executor) := by
  simp only [tlc_init, h]

theorem init_error {σ : Type} (lib : TlcLib σ) (w : σ) (params : TlcInitParams) (s : String)
    (h : (lib.tlc_init w params nullptr).status = some s) :
    tlc_init lib w params = ((lib.tlc_init w params nullptr).state, Except.error ⟨s⟩) := by
  simp only [tlc_init, h]

theorem tlc_init_state {σ : Type} (lib : TlcLib σ) (w : σ) (params : TlcInitParams) :
    (tlc_init lib w params).1 = (lib.tlc_init w params nullptr).state := by
  cases hs : (lib.tlc_init w params nullptr).status with
  | none => rw [init_ok lib w params hs]
  | some msg => rw [init_error lib w params msg hs]

theorem tlc_enqueue_request_state {σ : Type} (lib : TlcLib σ) (w : σ) (executor : Ptr)
    (request : TlcRequest) (req_id0 : TlcReqId) :
    (tlc_enqueue_request lib w executor request req_id0).1 =
      (lib.tlc_enqueue_request w executor request req_id0).state := by
  cases hs : (lib.tlc_enqueue_request w executor request req_id0).status with
  | none => rw [enqueue_ok lib w executor request req_id0 hs]
  | some msg => rw [enqueue_error lib w executor request req_id0 msg hs]

theorem tlc_await_responses_state {σ : Type} (lib : TlcLib σ) (w : σ) (executor : Ptr)
    (timeout_ms : Nat) :
    (tlc_await_responses lib w executor timeout_ms).1 =
      (lib.tlc_await_responses w executor timeout_ms nullptr 0).state := by
  cases hs : (drained lib w executor timeout_ms).status with
  | none => rw [await_ok lib w executor timeout_ms hs]; rfl
  | some msg => rw [await_error lib w executor timeout_ms msg hs]; rfl

/-- C1: `tlc_await_responses` is a pass-through of the drain.  Whenever the C
call reports success (null status) with count `n` and array `a`, the binding
returns a sequence `rs` of length exactly `n` whose `i`-th element is the struct
`a[i]` (so all eight fields agree); `n = 0` gives the empty sequence; and if
the array lists the Responses of each request with non-decreasing sequence
index, so does `rs`. -/
theorem await_responses_passthrough {σ : Type} (lib : TlcLib σ) (w : σ) (executor : Ptr)
    (timeout_ms : Nat)
    (hok : (drained lib w executor timeout_ms).status = Option.none) :
    ∃ rs : List TlcResponse,
      (tlc_await_responses lib w executor timeout_ms).2 = Except.ok rs ∧
      rs.length = (drained lib w executor timeout_ms).num_responses ∧
      (∀ i, i < (drained lib w executor timeout_ms).num_responses →
        rs[i]? = some (drainedAt lib (drained lib w executor timeout_ms) i)) ∧
      ((drained lib w executor timeout_ms).num_responses = 0 → rs = []) ∧
      ((∀ i j, i < j → j < (drained lib w executor timeout_ms).num_responses →
          (drainedAt lib (drained lib w executor timeout_ms) i).req_id =
            (drainedAt lib (drained lib w executor timeout_ms) j).req_id →
          (drainedAt lib (drained lib w executor timeout_ms) i).sequence_idx ≤
            (drainedAt lib (drained lib w executor timeout_ms) j).sequence_idx) →
        PerRequestOrdered rs) := by
  refine ⟨_, by rw [await_ok lib w executor timeout_ms hok], ?_, ?_, ?_, ?_⟩
  · exact vectorFromRange_length _ _ _
  · intro i hi
    exact vectorFromRange_getElem? _ _ _ i hi
  · intro h0
    rw [h0]
    rfl
  · intro hord
    exact vectorFromRange_ordered _ _ _ hord

/-- Witness of C1: the three buffered Responses of `Example.busy` come back
unchanged and in order. -/
theorem await_responses_passthrough_witness :
    (drained Spec.lib Example.busy 1 50).status = Option.none ∧
    ∃ rs : List TlcResponse,
      (tlc_await_responses Spec.lib Example.busy 1 50).2 = Except.ok rs ∧
      rs.length = (drained Spec.lib Example.busy 1 50).num_responses ∧
      (∀ i, i < (drained Spec.lib Example.busy 1 50).num_responses →
        rs[i]? = some (drainedAt Spec.lib (drained Spec.lib Example.busy 1 50) i)) ∧
      ((drained Spec.lib Example.busy 1 50).num_responses = 0 → rs = []) ∧
      ((∀ i j, i < j → j < (drained Spec.lib Example.busy 1 50).num_responses →
          (drainedAt Spec.lib (drained Spec.lib Example.busy 1 50) i).req_id =
            (drainedAt Spec.lib (drained Spec.lib Example.busy 1 50) j).req_id →
          (drainedAt Spec.lib (drained Spec.lib Example.busy 1 50) i).sequence_idx ≤
            (drainedAt Spec.lib (drained Spec.lib Example.busy 1 50) j).sequence_idx) →
        PerRequestOrdered rs) :=
  ⟨rfl, await_responses_passthrough Spec.lib Example.busy 1 50 rfl⟩

/-- C2: `tlc_enqueue_request` returns a RequestId exactly when the C enqueue
reports success (null status); the id it returns is the one the executor left
in `*req_id`; and when the C enqueue reports a failure status the call throws a
`runtime_error` carrying that status, so no RequestId is returned. -/
theorem enqueue_request_never_silently_succeeds {σ : Type} (lib : TlcLib σ) (w : σ)
    (executor : Ptr) (request : TlcRequest) (req_id0 : TlcReqId) :
    ((∃ id, (tlc_enqueue_request lib w executor request req_id0).2 = Except.ok id) ↔
      (lib.tlc_enqueue_request w executor request req_id0).status = Option.none) ∧
    (∀ id, (tlc_enqueue_request lib w executor request req_id0).2 = Except.ok id →
      id = (lib.tlc_enqueue_request w executor request req_id0).req_id) ∧
    (∀ s, (lib.tlc_enqueue_request w executor request req_id0).status = some s →
      (tlc_enqueue_request lib w executor request req_id0).2 = Except.error ⟨s⟩ ∧
      ∀ id, (tlc_enqueue_request lib w executor request req_id0).2 ≠ Except.ok id) := by
  cases hs : (lib.tlc_enqueue_request w executor request req_id0).status with
  | none =>
    rw [enqueue_ok lib w executor request req_id0 hs]
    refine ⟨⟨fun _ => rfl, fun _ => ⟨_, rfl⟩⟩, ?_, ?_⟩
    · intro id h
      simp only [Except.ok.injEq] at h
      exact h.symm
    · intro s h
      cases h
  | some msg =>
    rw [enqueue_error lib w executor request req_id0 msg hs]
    refine ⟨⟨?_, ?_⟩, ?_, ?_⟩
    · rintro ⟨id, h⟩
      cases h
    · intro h
      cases h
    · intro id h
      cases h
    · intro s h
      cases h
      exact ⟨rfl, fun id h => by cases h⟩

/-- Witness of C2: in `Example.full` the admission check says no, and an
enqueue attempted anyway throws `CapacityExceeded`. -/
theorem enqueue_request_never_silently_succeeds_witness :
    (can_enqueue_request Spec.lib Example.full 1).2 = false ∧
    (Spec.lib.tlc_enqueue_request Example.full 1 Example.request 99).status =
      some Spec.CapacityExceeded ∧
    (tlc_enqueue_request Spec.lib Example.full 1 Example.request 99).2 =
      Except.error ⟨Spec.CapacityExceeded⟩ ∧
    ∀ id, (tlc_enqueue_request Spec.lib Example.full 1 Example.request 99).2 ≠ Except.ok id :=
  ⟨rfl, rfl,
    (enqueue_request_never_silently_succeeds Spec.lib Example.full 1 Example.request 99).2.2
      Spec.CapacityExceeded rfl⟩

/-- C4: `tlc_await_responses` throws only when the C call itself reports a
failure status, and then with that status.  When the C call reports success the
binding returns normally whatever the `error` fields of the drained Responses
are, and the `i`-th returned Response carries the `error` field of the `i`-th
drained one. -/
theorem await_responses_reports_request_errors_in_band {σ : Type} (lib : TlcLib σ) (w : σ)
    (executor : Ptr) (timeout_ms : Nat) :
    (∀ e, (tlc_await_responses lib w executor timeout_ms).2 = Except.error e →
      (drained lib w executor timeout_ms).status = some e.what) ∧
    ((drained lib w executor timeout_ms).status = Option.none →
      ∃ rs : List TlcResponse,
        (tlc_await_responses lib w executor timeout_ms).2 = Except.ok rs ∧
        rs.length = (drained lib w executor timeout_ms).num_responses ∧
        ∀ i, i < (drained lib w executor timeout_ms).num_responses →
          rs[i]?.map TlcResponse.error =
            some (drainedAt lib (drained lib w executor timeout_ms) i).error) := by
  constructor
  · intro e he
    cases hs : (drained lib w executor timeout_ms).status with
    | none =>
      rw [await_ok lib w executor timeout_ms hs] at he
      cases he
    | some msg =>
      rw [await_error lib w executor timeout_ms msg hs] at he
      simp only [Except.error.injEq] at he
      rw [← he]
  · intro hs
    refine ⟨_, by rw [await_ok lib w executor timeout_ms hs], vectorFromRange_length _ _ _, ?_⟩
    intro i hi
    rw [vectorFromRange_getElem? _ _ _ i hi]
    rfl

/-- Witness of C4: the drain of `Example.busy` contains a Response whose error
is set (index 1, error pointer 1, text "boom"); the call returns normally and
the returned Response carries that error. -/
theorem await_responses_reports_request_errors_in_band_witness :
    (drained Spec.lib Example.busy 1 50).status = Option.none ∧
    (drainedAt Spec.lib (drained Spec.lib Example.busy 1 50) 1).error = 1 ∧
    errorText Spec.lib (drained Spec.lib Example.busy 1 50).state
      (drainedAt Spec.lib (drained Spec.lib Example.busy 1 50) 1) = some "boom" ∧
    ∃ rs : List TlcResponse,
      (tlc_await_responses Spec.lib Example.busy 1 50).2 = Except.ok rs ∧
      rs.length = (drained Spec.lib Example.busy 1 50).num_responses ∧
      ∀ i, i < (drained Spec.lib Example.busy 1 50).num_responses →
        rs[i]?.map TlcResponse.error =
          some (drainedAt Spec.lib (drained Spec.lib Example.busy 1 50) i).error :=
  ⟨rfl, rfl, rfl,
    (await_responses_reports_request_errors_in_band Spec.lib Example.busy 1 50).2 rfl⟩

/-- C8: `tlc_await_responses` with `timeout_ms = 0` makes exactly one call of
the C library: the log of calls grows by the single entry "await on the
caller's executor with timeout 0", whatever the library and its state.  The
binding adds nothing of its own: the state it leaves is the state that drain
left, and its outcome is that drain's outcome (the drained array on success,
possibly empty; the drain's status as an exception otherwise). -/
theorem await_responses_zero_is_one_drain {σ : Type} (lib : TlcLib σ) (w : σ)
    (log : List Call) (executor : Ptr) :
    (tlc_await_responses (traced lib) (w, log) executor 0).1.2 =
      log ++ [Call.await executor 0] ∧
    (tlc_await_responses (traced lib) (w, log) executor 0).1.1 =
      (drained lib w executor 0).state ∧
    (tlc_await_responses (traced lib) (w, log) executor 0).2 =
      (tlc_await_responses lib w executor 0).2 ∧
    (tlc_await_responses lib w executor 0).2 =
      (match (drained lib w executor 0).status with
       | some s => Except.error ⟨s⟩
       | Option.none => Except.ok ((List.range (drained lib w executor 0).num_responses).map
           (drainedAt lib (drained lib w executor 0)))) := by
  unfold tlc_await_responses traced drained
  cases hs : (lib.tlc_await_responses w executor 0 nullptr 0).status <;>
    simp [hs, vectorFromRange, drainedAt]

/-! ## Properties of the executor of the specification -/

namespace Spec

theorem pred_ne_pred (a b : Nat) (ha : a ≠ 0) (hb : b ≠ 0) (hne : b ≠ a) :
    a - 1 ≠ b - 1 := by
  omega

theorem lookup_some {w : World} {h : Ptr} {e : Executor} (hl : lookup w h = some e) :
    h ≠ nullptr ∧ w.executors[h - 1]? = some e := by
  unfold lookup at hl
  by_cases h0 : h = nullptr
  · simp [h0] at hl
  · simp only [h0, if_false] at hl
    exact ⟨h0, hl⟩

theorem lookup_store_self {w : World} {h : Ptr} {e : Executor} (e1 : Executor)
    (hl : lookup w h = some e) : lookup (store w h e1) h = some e1 := by
  obtain ⟨h0, hget⟩ := lookup_some hl
  have hlt : h - 1 < w.executors.length := by
    rcases List.getElem?_eq_some.mp hget with ⟨hlt, _⟩
    exact hlt
  simp [lookup, store, h0, List.getElem?_set_self, hlt]

theorem lookup_store_other {w : World} {h h1 : Ptr} (e1 : Executor)
    (h0 : h ≠ nullptr) (hne : h1 ≠ h) : lookup (store w h e1) h1 = lookup w h1 := by
  unfold lookup store
  by_cases h10 : h1 = nullptr
  · simp [h10]
  · simp only [h10, if_false]
    have hidx : h - 1 ≠ h1 - 1 := pred_ne_pred h h1 h0 h10 hne
    exact List.getElem?_set_ne hidx

theorem lookupLive_some {w : World} {h : Ptr} {e : Executor} (hl : lookupLive w h = some e) :
    lookup w h = some e ∧ e.state = ExecutorState.Initialized := by
  unfold lookupLive at hl
  cases hk : lookup w h with
  | none => simp [hk] at hl
  | some e1 =>
    simp only [hk] at hl
    by_cases hs : e1.state = ExecutorState.Initialized
    · simp only [hs, if_true, Option.some.injEq] at hl
      subst hl
      exact ⟨rfl, hs⟩
    · simp [hs] at hl

theorem lookupLive_of_isShutdown {w : World} {h : Ptr} (hs : IsShutdown w h) :
    lookupLive w h = Option.none := by
  obtain ⟨e, hl, hst⟩ := hs
  simp [lookupLive, hl, hst]

theorem isShutdown_store {w : World} {h h1 : Ptr} {e : Executor} (e1 : Executor)
    (hs : IsShutdown w h) (hl : lookup w h1 = some e)
    (hkeep : e.state = ExecutorState.Shutdown → e1.state = ExecutorState.Shutdown) :
    IsShutdown (store w h1 e1) h := by
  obtain ⟨e0, hl0, hst0⟩ := hs
  by_cases heq : h = h1
  · subst heq
    rw [hl0] at hl
    cases hl
    exact ⟨e1, lookup_store_self e1 hl0, hkeep hst0⟩
  · exact ⟨e0, by rw [lookup_store_other e1 (lookup_some hl).1 heq]; exact hl0, hst0⟩

theorem isShutdown_init {w : World} {h : Ptr} (params : TlcInitParams) (res0 : Ptr)
    (hs : IsShutdown w h) : IsShutdown (init w params res0).state h := by
  unfold init
  split
  · exact hs
  · split
    · exact hs
    · obtain ⟨e0, hl0, hst0⟩ := hs
      obtain ⟨h0, hget⟩ := lookup_some hl0
      have hlt : h - 1 < w.executors.length := by
        rcases List.getElem?_eq_some.mp hget with ⟨hlt, _⟩
        exact hlt
      refine ⟨e0, ?_, hst0⟩
      simp only [lookup, h0, if_false]
      rw [List.getElem?_append_left hlt]
      exact hget

theorem isShutdown_shutdown {w : World} {h : Ptr} (h1 : Ptr)
    (hs : IsShutdown w h) : IsShutdown (shutdown w h1) h := by
  unfold shutdown
  cases hl : lookup w h1 with
  | none => exact hs
  | some e => exact isShutdown_store _ hs hl (fun _ => rfl)

theorem isShutdown_enqueue {w : World} {h : Ptr} (h1 : Ptr) (request : TlcRequest)
    (id0 : TlcReqId) (hs : IsShutdown w h) : IsShutdown (enqueue w h1 request id0).state h := by
  unfold enqueue
  cases hl : lookupLive w h1 with
  | none => exact hs
  | some e =>
    simp only
    split
    · exact hs
    · split
      · exact hs
      · exact isShutdown_store _ hs (lookupLive_some hl).1 (fun hsd => hsd)

theorem isShutdown_awaitResponses {w : World} {h : Ptr} (h1 : Ptr) (timeout_ms : Nat)
    (ptr0 : Ptr) (num0 : Nat) (hs : IsShutdown w h) :
    IsShutdown (awaitResponses w h1 timeout_ms ptr0 num0).state h := by
  unfold awaitResponses
  cases hl : lookupLive w h1 with
  | none => exact hs
  | some e =>
    have hst := isShutdown_store { e with buffer := [] } hs (lookupLive_some hl).1
      (fun hsd => hsd)
    obtain ⟨e0, hl0, hst0⟩ := hst
    exact ⟨e0, hl0, hst0⟩

theorem isShutdown_canEnqueue {w : World} {h : Ptr} (h1 : Ptr)
    (hs : IsShutdown w h) : IsShutdown (canEnqueue w h1).1 h := by
  unfold canEnqueue
  cases lookupLive w h1 <;> exact hs

theorem canEnqueue_state (w : World) (h : Ptr) : (canEnqueue w h).1 = w := by
  unfold canEnqueue
  cases lookupLive w h <;> rfl

theorem shutdownExecutor_idem (e : Executor) :
    shutdownExecutor (shutdownExecutor e) = shutdownExecutor e := by
  simp [shutdownExecutor]

theorem store_store (w : World) (h : Ptr) (e1 e2 : Executor) :
    store (store w h e1) h e2 = store w h e2 := by
  simp [store, List.set_set]

theorem shutdown_idem (w : World) (h : Ptr) : shutdown (shutdown w h) h = shutdown w h := by
  cases hl : lookup w h with
  | none =>
    have h1 : shutdown w h = w := by simp [shutdown, hl]
    rw [h1, h1]
  | some e =>
    have h1 : shutdown w h = store w h (shutdownExecutor e) := by simp [shutdown, hl]
    have h2 : lookup (store w h (shutdownExecutor e)) h = some (shutdownExecutor e) :=
      lookup_store_self _ hl
    rw [h1]
    simp only [shutdown, h2, store_store, shutdownExecutor_idem]

theorem isShutdown_later {w1 w2 : World} {h : Ptr} (hl : Later lib w1 w2)
    (hs : IsShutdown w1 h) : IsShutdown w2 h := by
  induction hl with
  | refl => exact hs
  | init params _ ih =>
    rw [tlc_init_state]
    exact isShutdown_init params nullptr ih
  | shutdown executor _ ih => exact isShutdown_shutdown executor ih
  | enqueue executor request id0 _ ih =>
    rw [tlc_enqueue_request_state]
    exact isShutdown_enqueue executor request id0 ih
  | await executor timeout_ms _ ih =>
    rw [tlc_await_responses_state]
    exact isShutdown_awaitResponses executor timeout_ms nullptr 0 ih
  | can_enqueue executor _ ih => exact isShutdown_canEnqueue executor ih

end Spec

/-! ## The binding over the executor of the specification -/

theorem Spec.init_cases (w : Spec.World) (params : TlcInitParams) (res0 : Ptr) :
    ((Spec.init w params res0).status = Option.none ∧
      (Spec.init w params res0).executor = w.executors.length + 1 ∧
      ∃ e, Spec.lookupLive (Spec.init w params res0).state
        (Spec.init w params res0).executor = some e) ∨
    ((Spec.init w params res0).status = some Spec.InitError ∧
      (Spec.init w params res0).state = w ∧ (Spec.init w params res0).executor = res0) := by
  unfold Spec.init
  split
  · exact Or.inr ⟨rfl, rfl, rfl⟩
  · split
    · exact Or.inr ⟨rfl, rfl, rfl⟩
    · refine Or.inl ⟨rfl, rfl, ?_⟩
      simp [Spec.lookupLive, Spec.lookup, nullptr]

/-- C3: `tlc_init` is all-or-nothing.  For every C library: a failure status of
the C init becomes a thrown `runtime_error` carrying that status, a success
status returns the handle the C init stored, and a handle is returned only in
the success case.  For the executor of the specification: either the call
returns exactly the handle the C init produced, that handle is not null and
names an executor in state `Initialized`; or the call throws `InitError` and
the library state is what it was before the call. -/
theorem init_all_or_nothing :
    (∀ (σ : Type) (lib : TlcLib σ) (w : σ) (params : TlcInitParams),
      (∀ s, (lib.tlc_init w params nullptr).status = some s →
        tlc_init lib w params = ((lib.tlc_init w params nullptr).state, Except.error ⟨s⟩)) ∧
      ((lib.tlc_init w params nullptr).status = Option.none →
        tlc_init lib w params =
          ((lib.tlc_init w params nullptr).state,
            Except.ok (lib.tlc_init w params nullptr).executor)) ∧
      (∀ h, (tlc_init lib w params).2 = Except.ok h →
        (lib.tlc_init w params nullptr).status = Option.none ∧
        h = (lib.tlc_init w params nullptr).executor)) ∧
    (∀ (w : Spec.World) (params : TlcInitParams),
      (∃ h e, tlc_init Spec.lib w params = ((Spec.init w params nullptr).state, Except.ok h) ∧
        (Spec.init w params nullptr).status = Option.none ∧
        h = (Spec.init w params nullptr).executor ∧
        h ≠ nullptr ∧
        Spec.lookupLive (tlc_init Spec.lib w params).1 h = some e) ∨
      (tlc_init Spec.lib w params = (w, Except.error ⟨Spec.InitError⟩) ∧
        (Spec.init w params nullptr).status = some Spec.InitError)) := by
  constructor
  · intro σ lib w params
    refine ⟨fun s hs => init_error lib w params s hs, fun hs => init_ok lib w params hs, ?_⟩
    intro h hh
    cases hs : (lib.tlc_init w params nullptr).status with
    | none =>
      rw [init_ok lib w params hs] at hh
      simp only [Except.ok.injEq] at hh
      exact ⟨rfl, hh.symm⟩
    | some msg =>
      rw [init_error lib w params msg hs] at hh
      cases hh
  · intro w params
    rcases Spec.init_cases w params nullptr with ⟨hs, hex, e, he⟩ | ⟨hs, hst, _⟩
    · left
      have hok := init_ok Spec.lib w params hs
      refine ⟨(Spec.init w params nullptr).executor, e, hok, hs, rfl, ?_, ?_⟩
      · rw [hex]
        exact Nat.succ_ne_zero _
      · rw [hok]
        exact he
    · right
      have herr := init_error Spec.lib w params Spec.InitError hs
      refine ⟨?_, hs⟩
      rw [herr]
      show ((Spec.init w params nullptr).state, _) = _
      rw [hst]

/-- Witness of C3: initialising `Example.fresh` with valid parameters returns
handle 1; with an unresolvable engine path the call throws and nothing is
created. -/
theorem init_all_or_nothing_witness :
    (Spec.lib.tlc_init Example.fresh Example.params nullptr).status = Option.none ∧
    tlc_init Spec.lib Example.fresh Example.params =
      ((Spec.lib.tlc_init Example.fresh Example.params nullptr).state, Except.ok 1) ∧
    (Spec.lib.tlc_init Example.fresh ⟨"/nowhere", 8, 2⟩ nullptr).status =
      some Spec.InitError ∧
    tlc_init Spec.lib Example.fresh ⟨"/nowhere", 8, 2⟩ =
      (Example.fresh, Except.error ⟨Spec.InitError⟩) :=
  ⟨rfl, (init_all_or_nothing.1 Spec.World Spec.lib Example.fresh Example.params).2.1 rfl, rfl,
    (init_all_or_nothing.1 Spec.World Spec.lib Example.fresh ⟨"/nowhere", 8, 2⟩).1
      Spec.InitError rfl⟩

/-- C5: shutdown is terminal.  Let `executor` be a handle that names an
executor, and let `w2` be any state reached from the state right after
`tlc_shutdown` on that handle by any further calls of the binding.  In `w2`,
`tlc_enqueue_request` and `tlc_await_responses` on that handle throw
`NotInitialized` and leave the state alone, and `can_enqueue_request` reports
no capacity. -/
theorem shutdown_is_terminal (w : Spec.World) (executor : Ptr)
    (hh : (Spec.lookup w executor).isSome = true) (w2 : Spec.World)
    (hlater : Later Spec.lib (tlc_shutdown Spec.lib w executor) w2)
    (request : TlcRequest) (req_id0 : TlcReqId) (timeout_ms : Nat) :
    tlc_enqueue_request Spec.lib w2 executor request req_id0 =
      (w2, Except.error ⟨Spec.NotInitialized⟩) ∧
    tlc_await_responses Spec.lib w2 executor timeout_ms =
      (w2, Except.error ⟨Spec.NotInitialized⟩) ∧
    can_enqueue_request Spec.lib w2 executor = (w2, false) := by
  obtain ⟨e, he⟩ := Option.isSome_iff_exists.mp hh
  have hsd : Spec.IsShutdown (tlc_shutdown Spec.lib w executor) executor := by
    refine ⟨Spec.shutdownExecutor e, ?_, rfl⟩
    show Spec.lookup (Spec.shutdown w executor) executor = _
    simp only [Spec.shutdown, he]
    exact Spec.lookup_store_self _ he
  have hdead := Spec.lookupLive_of_isShutdown (Spec.isShutdown_later hlater hsd)
  refine ⟨?_, ?_, ?_⟩
  · have hs : (Spec.lib.tlc_enqueue_request w2 executor request req_id0).status =
        some Spec.NotInitialized := by
      show (Spec.enqueue w2 executor request req_id0).status = _
      simp only [Spec.enqueue, hdead]
    rw [enqueue_error Spec.lib w2 executor request req_id0 _ hs]
    show ((Spec.enqueue w2 executor request req_id0).state, _) = _
    simp only [Spec.enqueue, hdead]
  · have hs : (drained Spec.lib w2 executor timeout_ms).status = some Spec.NotInitialized := by
      show (Spec.awaitResponses w2 executor timeout_ms nullptr 0).status = _
      simp only [Spec.awaitResponses, hdead]
    rw [await_error Spec.lib w2 executor timeout_ms _ hs]
    show ((Spec.awaitResponses w2 executor timeout_ms nullptr 0).state, _) = _
    simp only [Spec.awaitResponses, hdead]
  · show Spec.canEnqueue w2 executor = _
    simp only [Spec.canEnqueue, hdead]

/-- Witness of C5: shut `Example.busy` down, try an enqueue, and then every
operation on handle 1 still fails with `NotInitialized`. -/
theorem shutdown_is_terminal_witness :
    (Spec.lookup Example.busy 1).isSome = true ∧
    tlc_enqueue_request Spec.lib
        (tlc_enqueue_request Spec.lib (tlc_shutdown Spec.lib Example.busy 1) 1
          Example.request 0).1 1 Example.request 0 =
      ((tlc_enqueue_request Spec.lib (tlc_shutdown Spec.lib Example.busy 1) 1
          Example.request 0).1, Except.error ⟨Spec.NotInitialized⟩) ∧
    tlc_await_responses Spec.lib
        (tlc_enqueue_request Spec.lib (tlc_shutdown Spec.lib Example.busy 1) 1
          Example.request 0).1 1 0 =
      ((tlc_enqueue_request Spec.lib (tlc_shutdown Spec.lib Example.busy 1) 1
          Example.request 0).1, Except.error ⟨Spec.NotInitialized⟩) ∧
    can_enqueue_request Spec.lib
        (tlc_enqueue_request Spec.lib (tlc_shutdown Spec.lib Example.busy 1) 1
          Example.request 0).1 1 =
      ((tlc_enqueue_request Spec.lib (tlc_shutdown Spec.lib Example.busy 1) 1
          Example.request 0).1, false) :=
  ⟨rfl, shutdown_is_terminal Example.busy 1 rfl _
    (Later.enqueue 1 Example.request 0 (Later.refl _)) Example.request 0 0⟩

/-- C6: shutdown is idempotent.  For an initialised executor, a second
`tlc_shutdown` leaves exactly the state the first one left; in that state the
executor is `Shutdown` and its resources have been released once more than
before the first call (the second call releases nothing).  `tlc_shutdown` has
no failure outcome. -/
theorem shutdown_idempotent (w : Spec.World) (executor : Ptr) (e : Spec.Executor)
    (hlive : Spec.lookupLive w executor = some e) :
    tlc_shutdown Spec.lib (tlc_shutdown Spec.lib w executor) executor =
      tlc_shutdown Spec.lib w executor ∧
    ∃ e1, Spec.lookup (tlc_shutdown Spec.lib w executor) executor = some e1 ∧
      e1.state = Spec.ExecutorState.Shutdown ∧ e1.releases = e.releases + 1 ∧
      Spec.lookup (tlc_shutdown Spec.lib (tlc_shutdown Spec.lib w executor) executor) executor =
        some e1 := by
  obtain ⟨hl, hst⟩ := Spec.lookupLive_some hlive
  have hidem : tlc_shutdown Spec.lib (tlc_shutdown Spec.lib w executor) executor =
      tlc_shutdown Spec.lib w executor := Spec.shutdown_idem w executor
  refine ⟨hidem, Spec.shutdownExecutor e, ?_, rfl, ?_, ?_⟩
  · show Spec.lookup (Spec.shutdown w executor) executor = _
    simp only [Spec.shutdown, hl]
    exact Spec.lookup_store_self _ hl
  · simp [Spec.shutdownExecutor, hst]
  · rw [hidem]
    show Spec.lookup (Spec.shutdown w executor) executor = _
    simp only [Spec.shutdown, hl]
    exact Spec.lookup_store_self _ hl

/-- Witness of C6: shutting `Example.busy` down twice. -/
theorem shutdown_idempotent_witness :
    Spec.lookupLive Example.busy 1 = some
      ⟨Spec.ExecutorState.Initialized, 2, 3, [], [⟨1, [5, 6, 9], 1⟩],
        [⟨1, 0, false, false, [5, 6], TlcFinishReason.none, Option.none⟩,
         ⟨2, 0, true, true, [], TlcFinishReason.error, some "boom"⟩,
         ⟨1, 1, false, false, [9], TlcFinishReason.none, Option.none⟩], 0⟩ ∧
    tlc_shutdown Spec.lib (tlc_shutdown Spec.lib Example.busy 1) 1 =
      tlc_shutdown Spec.lib Example.busy 1 :=
  ⟨rfl, (shutdown_idempotent Example.busy 1 _ rfl).1⟩

/-- C7: `can_enqueue_request` is a side-effect-free pass-through.  For every C
library it returns exactly what the C admission check returns for the same
executor, and it has no failure outcome.  For the executor of the
specification the state after the call is the state before it, the answer is
the Admission Controller's (no capacity for an executor that is not
initialised), and a second call right after the first gives the same answer. -/
theorem can_enqueue_is_pure_passthrough :
    (∀ (σ : Type) (lib : TlcLib σ) (w : σ) (self : Ptr),
      can_enqueue_request lib w self = lib.tlc_can_enqueue_request w self) ∧
    (∀ (w : Spec.World) (self : Ptr),
      (can_enqueue_request Spec.lib w self).1 = w ∧
      (can_enqueue_request Spec.lib w self).2 =
        (match Spec.lookupLive w self with
         | some e => Spec.admits e
         | Option.none => false) ∧
      can_enqueue_request Spec.lib (can_enqueue_request Spec.lib w self).1 self =
        can_enqueue_request Spec.lib w self) := by
  refine ⟨fun _ _ _ _ => rfl, fun w self => ?_⟩
  have h1 : (can_enqueue_request Spec.lib w self).1 = w := Spec.canEnqueue_state w self
  refine ⟨h1, ?_, by rw [h1]⟩
  show (Spec.canEnqueue w self).2 = _
  unfold Spec.canEnqueue
  cases Spec.lookupLive w self <;> rfl

/-! ## Ownership of what `tlc_await_responses` returns -/

namespace Spec

end Spec

end TrtllmC
